import Mathlib

/-!
Shallow embedding of `src/Ligeirinho.c` (reaction-time game firmware) and
verification of its specification claims.

Modelling conventions:
* machine integers are `Nat` with explicit `% 2^32` where 32-bit wraparound
  matters (`uint32_t` debounce arithmetic, the `uint32_t` cast of the elapsed
  time); `absolute_time_t` instants are `Nat` microseconds since boot;
* the global variables of the C file are collected in one `GameState` record;
  each C function becomes a pure function on `GameState`, with its effectful
  inputs (`rand()`, `gpio_get`, `get_absolute_time`) passed as parameters;
* hardware writes (`pwm_set_gpio_level`, display rendering, alarms) are
  modelled by fields recording the last written level / text / pending alarm
  durations; sleeps have no observable effect beyond the passage of time,
  which is carried by the explicit time parameters.
-/

namespace Ligeirinho

/-- The modulus of `uint32_t` arithmetic, 2^32. -/
def U32 : Nat := 2 ^ 32

/-- Subtraction `a - b` in `uint32_t` arithmetic (both arguments first reduced mod 2^32). -/
def u32_sub (a b : Nat) : Nat := (a % U32 + U32 - b % U32) % U32

/-- Pin of button A (`#define BUTTON_START 5`). -/
def BUTTON_START : Nat := 5

/-- Pin of button B (`#define BUTTON_STOP 6`). -/
def BUTTON_STOP : Nat := 6

/-- The constant `LED_PWM_WRAP` (= 1000). -/
def LED_PWM_WRAP : Nat := 1000

/-- The constant `LED_ON` (= `LED_PWM_WRAP / 8`). -/
def LED_ON : Nat := LED_PWM_WRAP / 8

/-- RP2040 default system clock frequency returned by `clock_get_hz(clk_sys)`. -/
def clock_sys_hz : Nat := 125000000

/-- The global state of the firmware: the game-control globals of
`Ligeirinho.c` plus the observable actuator state (PWM levels written, display
text, scheduled buzzer-off alarm durations).  Times are microseconds since
boot. -/
structure GameState where
  game_running : Bool
  reaction_phase : Bool
  false_start_detected : Bool
  button_b_pressed : Bool
  start_time : Nat
  reaction_time : Nat
  led_green : Nat
  led_red : Nat
  buzzer_active : Bool
  buzzer_wrap : Nat
  buzzer_level : Nat
  alarms : List Nat
  display : String
  deriving Repr, DecidableEq

/-- State at the end of the initialisation of `main`, before the first loop
iteration: all flags false, LEDs and buzzer off, ready prompt shown. -/
def init_state : GameState :=
  { game_running := false
    reaction_phase := false
    false_start_detected := false
    button_b_pressed := false
    start_time := 0
    reaction_time := 0
    led_green := 0
    led_red := 0
    buzzer_active := false
    buzzer_wrap := 0
    buzzer_level := 0
    alarms := []
    display := "PRESSIONE A    PARA COMECAR!" }

/-- Models `stop_buzzer`: alarm callback, sets the buzzer PWM level to 0 and clears
`buzzer_active`. -/
def stop_buzzer (s : GameState) : GameState :=
  { s with buzzer_level := 0, buzzer_active := false }

/-- Models `buzzer_beep(frequency, duration_ms)`: if `buzzer_active` return at once;
otherwise program the PWM wrap/level for the note, set `buzzer_active`, and
schedule a `stop_buzzer` alarm after `duration_ms`. -/
def buzzer_beep (frequency duration_ms : Nat) (s : GameState) : GameState :=
  if s.buzzer_active then s
  else
    let top := clock_sys_hz / frequency - 1
    { s with buzzer_wrap := top
             buzzer_level := top / 2
             buzzer_active := true
             alarms := s.alarms ++ [duration_ms] }

/-- Models `get_elapsed_time()`: `absolute_time_diff_us(start_time, reaction_time)`
is the `int64_t` difference `to - from`; it is divided by 1000 with C `int64_t`
(truncating) division and the result is cast to `uint32_t` (reduce mod 2^32).
-/
def get_elapsed_time (start_time reaction_time : Nat) : Nat :=
  ((Int.tdiv ((reaction_time : Int) - (start_time : Int)) 1000).emod (U32 : Int)).toNat

/-- Debounce state: the `static uint32_t last_time` of `debounce_button`.  The
field stores the real millisecond instant of the last update; the register
holds its value mod 2^32, and every use below reduces it mod 2^32, exactly as
the `uint32_t` register would. -/
structure DebounceState where
  last_time : Nat
  deriving Repr, DecidableEq

/-- Models `debounce_button(gpio)`: `current_time` is `to_ms_since_boot(...)`
(a `uint32_t`, modelled as the real millisecond instant `now` reduced mod 2^32
at each use); `pressed` is the raw read `gpio_get(gpio) == 0`.  If
`current_time - last_time < 50` (in `uint32_t` arithmetic) return `false`
without touching the state; otherwise store `current_time` into `last_time`
and return the raw read. -/
def debounce_button (pressed : Bool) (now : Nat) (d : DebounceState) :
    Bool × DebounceState :=
  if u32_sub (now % U32) (d.last_time % U32) < 50 then (false, d)
  else (pressed, { last_time := now })

/-- Thread the debounce state through a list of calls
`(millisecond instant, raw pressed read)`. -/
def debounce_run (d : DebounceState) : List (Nat × Bool) → DebounceState
  | [] => d
  | c :: rest => debounce_run (debounce_button c.2 c.1 d).2 rest

/-- The armed-wait loop of `start_game`:
`for (i = 0; i < delay_ms/10; i++) { sleep_ms(10);
 if (gpio_get(BUTTON_STOP) == 0) { false_start_detected = true; break; } }`.
`n` is the remaining iteration count, `i` the loop index, and `stop i` the raw
read `gpio_get(BUTTON_STOP) == 0` sampled after the `i`-th 10 ms sleep. -/
def armed_wait : Nat → Nat → (Nat → Bool) → GameState → GameState
  | 0, _, _, s => s
  | n + 1, i, stop, s =>
    if stop i then { s with false_start_detected := true }
    else armed_wait n (i + 1) stop s

/-- The random delay `uint delay_ms = 1000 + (rand() % 4000)` drawn from the
`rand()` result `r`. -/
def draw_delay (r : Nat) : Nat := 1000 + r % 4000

/-- The head of the body of `start_game` (lines before the wait loop): set
`game_running`, clear the per-round flags, show the prepare prompt and light
the green LED. -/
def prep_state (s : GameState) : GameState :=
  { s with game_running := true
           reaction_phase := false
           false_start_detected := false
           button_b_pressed := false
           display := "PREPARAR...!"
           led_green := LED_ON }

/-- The `if (false_start_detected)` branch of `start_game`: false-start
message, green LED off, red LED blinked three times (its net level is 0),
flags cleared, and after the 2000 ms cooldown the ready prompt. -/
def penalized_exit (s : GameState) : GameState :=
  { s with display := "PRESSIONE A    PARA COMECAR!"
           led_green := 0
           led_red := 0
           game_running := false
           reaction_phase := false }

/-- The tail of `start_game` when the wait completed: green LED off, red LED
on, go-signal beep, `start_timer()` records `go_time` into `start_time`,
`reaction_phase` is enabled, and the react prompt is shown. -/
def go_transition (go_time : Nat) (s : GameState) : GameState :=
  { buzzer_beep 3000 300 { s with led_green := 0, led_red := LED_ON } with
      start_time := go_time
      reaction_phase := true
      display := "PRESSIONE B    PARA MARCAR!" }

/-- Models `start_game()`.  Effect inputs: `r` is the `rand()` result, `stop` the
per-tick raw reads of `BUTTON_STOP` during the armed wait, and `go_time` the
instant `get_absolute_time()` returns inside `start_timer()`. -/
def start_game (r : Nat) (stop : Nat → Bool) (go_time : Nat)
    (s : GameState) : GameState :=
  if s.game_running then s
  else if (armed_wait (draw_delay r / 10) 0 stop
      (prep_state s)).false_start_detected then
    penalized_exit (armed_wait (draw_delay r / 10) 0 stop (prep_state s))
  else
    go_transition go_time (armed_wait (draw_delay r / 10) 0 stop (prep_state s))

/-- Models `gpio_callback(gpio, events)`: the falling-edge interrupt handler for
button B; `now` is the `get_absolute_time()` instant at which it runs. -/
def gpio_callback (gpio : Nat) (now : Nat) (s : GameState) : GameState :=
  if (gpio == BUTTON_STOP) && s.game_running && s.reaction_phase then
    { s with reaction_time := now, button_b_pressed := true }
  else s

/-- A sequence of `BUTTON_STOP` falling-edge interrupts delivered at the
listed instants (microseconds since boot), in order. -/
def run_interrupts (events : List Nat) (s : GameState) : GameState :=
  match events with
  | [] => s
  | t :: rest => run_interrupts rest (gpio_callback BUTTON_STOP t s)

/-- Models `sprintf(buffer, "Tempo: %.1f ms", (float)elapsed_time)`.  For
`elapsed < 2^24` the `uint32_t → float` conversion is exact and `%.1f` renders
the decimal digits followed by `".0"`; the theorems below use this definition
only in that range. -/
def format_elapsed (elapsed : Nat) : String :=
  "Tempo: " ++ toString elapsed ++ ".0 ms"

/-- The scoring block of `main` up to the `sleep_ms(5000)` hold: turn the red
LED off, silence the buzzer (`stop_buzzer(0, NULL)` called directly), and
display the elapsed time. -/
def score_show (s : GameState) : GameState :=
  let s1 := stop_buzzer { s with led_red := 0 }
  { s1 with display :=
      format_elapsed (get_elapsed_time s.start_time s.reaction_time) }

/-- The reset tail of the scoring block of `main`, after the 5000 ms hold:
clear all game flags and redisplay the ready prompt. -/
def idle_reset (s : GameState) : GameState :=
  { s with game_running := false
           reaction_phase := false
           false_start_detected := false
           button_b_pressed := false
           display := "PRESSIONE A    PARA COMECAR!" }

/-- The full `if (game_running && reaction_phase && button_b_pressed)` block
of the loop of `main`. -/
def score_round (s : GameState) : GameState :=
  if s.game_running && s.reaction_phase && s.button_b_pressed then
    idle_reset (score_show s)
  else s

/-- The `if (debounce_button(BUTTON_START))` branch of the loop of `main`, given
that the debounced press was accepted: `if (!game_running) start_game();`
(the 300 ms sleep has no modelled effect). -/
def handle_start_press (r : Nat) (stop : Nat → Bool) (go_time : Nat)
    (s : GameState) : GameState :=
  if !s.game_running then start_game r stop go_time s else s

/-- A state in the Reacting phase, as produced by a completed armed wait:
both `game_running` and `reaction_phase` set, red LED on, go-signal beep
sounding, no capture yet. -/
def reacting_state : GameState :=
  { init_state with game_running := true
                    reaction_phase := true
                    led_red := LED_ON
                    buzzer_active := true
                    display := "PRESSIONE B    PARA MARCAR!" }

/-- A Reacting-phase state in which the interrupt has captured a press
350 ms after a go signal at t = 1 s. -/
def captured_state : GameState :=
  { reacting_state with button_b_pressed := true
                        start_time := 1000000
                        reaction_time := 1350000 }

/-! ### Helper lemmas -/

lemma u32_sub_mod (a b : Nat) (h : b ≤ a) :
    u32_sub (a % U32) (b % U32) = (a - b) % U32 := by
  unfold u32_sub U32
  omega

lemma u32_sub_le (a b : Nat) (h : b ≤ a) :
    u32_sub (a % U32) (b % U32) ≤ a - b := by
  unfold u32_sub U32
  omega

lemma get_elapsed_time_of_le (a b : Nat) (h : a ≤ b) :
    get_elapsed_time a b = (b - a) / 1000 % U32 := by
  unfold get_elapsed_time
  rw [← Int.ofNat_sub h]
  simp only [Int.tdiv]
  norm_cast

/-- The armed-wait loop either leaves the state unchanged or only sets
`false_start_detected`. -/
lemma armed_wait_cases (n i : Nat) (stop : Nat → Bool) (s : GameState) :
    armed_wait n i stop s = s
    ∨ armed_wait n i stop s = { s with false_start_detected := true } := by
  induction n generalizing i with
  | zero => exact Or.inl rfl
  | succ n ih =>
    unfold armed_wait
    split
    · exact Or.inr rfl
    · exact ih (i + 1)

lemma armed_wait_fields (n i : Nat) (stop : Nat → Bool) (s : GameState) :
    (armed_wait n i stop s).game_running = s.game_running
    ∧ (armed_wait n i stop s).reaction_phase = s.reaction_phase
    ∧ (armed_wait n i stop s).button_b_pressed = s.button_b_pressed
    ∧ (armed_wait n i stop s).start_time = s.start_time
    ∧ (armed_wait n i stop s).reaction_time = s.reaction_time
    ∧ (armed_wait n i stop s).buzzer_active = s.buzzer_active := by
  rcases armed_wait_cases n i stop s with h | h <;> rw [h] <;>
    exact ⟨rfl, rfl, rfl, rfl, rfl, rfl⟩

lemma buzzer_beep_flags (f d : Nat) (s : GameState) :
    (buzzer_beep f d s).game_running = s.game_running
    ∧ (buzzer_beep f d s).reaction_phase = s.reaction_phase
    ∧ (buzzer_beep f d s).false_start_detected = s.false_start_detected
    ∧ (buzzer_beep f d s).button_b_pressed = s.button_b_pressed
    ∧ (buzzer_beep f d s).start_time = s.start_time
    ∧ (buzzer_beep f d s).reaction_time = s.reaction_time := by
  unfold buzzer_beep
  split <;> exact ⟨rfl, rfl, rfl, rfl, rfl, rfl⟩

lemma go_transition_fields (g : Nat) (t : GameState) :
    (go_transition g t).game_running = t.game_running
    ∧ (go_transition g t).reaction_phase = true
    ∧ (go_transition g t).false_start_detected = t.false_start_detected
    ∧ (go_transition g t).button_b_pressed = t.button_b_pressed
    ∧ (go_transition g t).start_time = g
    ∧ (go_transition g t).reaction_time = t.reaction_time := by
  unfold go_transition buzzer_beep
  split <;> exact ⟨rfl, rfl, rfl, rfl, rfl, rfl⟩

/-- Outcome of `start_game` from an idle state: either a penalized round
(false start detected, back to idle, latch untouched) or a transition into
the Reacting phase with `start_time = go_time` and an empty latch. -/
lemma start_game_spec (r : Nat) (stop : Nat → Bool) (go_time : Nat)
    (s : GameState) (h : s.game_running = false) :
    ((start_game r stop go_time s).false_start_detected = true
      ∧ (start_game r stop go_time s).game_running = false
      ∧ (start_game r stop go_time s).reaction_phase = false
      ∧ (start_game r stop go_time s).button_b_pressed = false)
    ∨ ((start_game r stop go_time s).false_start_detected = false
      ∧ (start_game r stop go_time s).game_running = true
      ∧ (start_game r stop go_time s).reaction_phase = true
      ∧ (start_game r stop go_time s).button_b_pressed = false
      ∧ (start_game r stop go_time s).start_time = go_time) := by
  unfold start_game
  rw [h]
  simp only [Bool.false_eq_true, if_false]
  rcases armed_wait_cases (draw_delay r / 10) 0 stop (prep_state s)
    with hw | hw <;> rw [hw]
  · right
    have hg := go_transition_fields go_time (prep_state s)
    exact ⟨hg.2.2.1, hg.1, hg.2.1, hg.2.2.2.1, hg.2.2.2.2.1⟩
  · left
    exact ⟨rfl, rfl, rfl, rfl⟩

lemma run_interrupts_preserves (events : List Nat) :
    ∀ s : GameState,
    (run_interrupts events s).game_running = s.game_running
    ∧ (run_interrupts events s).reaction_phase = s.reaction_phase
    ∧ (run_interrupts events s).start_time = s.start_time := by
  induction events with
  | nil => intro s; exact ⟨rfl, rfl, rfl⟩
  | cons t rest ih =>
    intro s
    unfold run_interrupts
    have hc : (gpio_callback BUTTON_STOP t s).game_running = s.game_running
        ∧ (gpio_callback BUTTON_STOP t s).reaction_phase = s.reaction_phase
        ∧ (gpio_callback BUTTON_STOP t s).start_time = s.start_time := by
      unfold gpio_callback
      split <;> exact ⟨rfl, rfl, rfl⟩
    obtain ⟨h1, h2, h3⟩ := ih (gpio_callback BUTTON_STOP t s)
    exact ⟨h1.trans hc.1, h2.trans hc.2.1, h3.trans hc.2.2⟩

/-- If the latch is empty (or its timestamp already bounded below by `c`)
and every delivered interrupt instant is at least `c`, then after any
interrupt sequence a captured `reaction_time` is at least `c`. -/
lemma run_interrupts_capture_bound (c : Nat) (events : List Nat) :
    ∀ s : GameState,
    (s.button_b_pressed = true → c ≤ s.reaction_time) →
    (∀ e ∈ events, c ≤ e) →
    (run_interrupts events s).button_b_pressed = true →
    c ≤ (run_interrupts events s).reaction_time := by
  induction events with
  | nil => intro s hs _ hb; exact hs hb
  | cons t rest ih =>
    intro s hs he hb
    unfold run_interrupts at hb ⊢
    refine ih (gpio_callback BUTTON_STOP t s) ?_
      (fun e hm => he e (List.mem_cons_of_mem _ hm)) hb
    unfold gpio_callback
    split
    · intro _
      exact he t (List.mem_cons_self _ _)
    · exact hs

lemma debounce_true_update (p : Bool) (t : Nat) (d : DebounceState)
    (h : (debounce_button p t d).1 = true) :
    (debounce_button p t d).2 = ⟨t⟩ := by
  unfold debounce_button at h ⊢
  split at h
  · simp at h
  · rename_i hc
    rw [if_neg hc]

/-- The debounce register after a run of calls holds either its initial
value or the instant of one of the calls. -/
lemma debounce_run_last_mem (mid : List (Nat × Bool)) :
    ∀ d : DebounceState, (debounce_run d mid).last_time = d.last_time
      ∨ (debounce_run d mid).last_time ∈ mid.map Prod.fst := by
  induction mid with
  | nil => intro d; exact Or.inl rfl
  | cons c rest ih =>
    intro d
    unfold debounce_run
    rcases ih (debounce_button c.2 c.1 d).2 with h | h
    · rw [h]
      unfold debounce_button
      split
      · exact Or.inl rfl
      · right
        simp
    · right
      rw [List.map_cons]
      exact List.mem_cons_of_mem _ h

/-! ### Claim theorems -/

/-- C1 (counterexample): the claim says a second stop-edge interrupt while
`button_b_pressed` is already true is a no-op preserving the first
`reaction_time`.  In the code `gpio_callback` is gated only on
`game_running && reaction_phase`, so a second interrupt at t = 1.4 s after a
first capture at t = 1.35 s overwrites `reaction_time` with 1400000: the
handler is not a no-op and the first timestamp is not preserved. -/
theorem c1_counterexample :
    (gpio_callback BUTTON_STOP 1400000
        (gpio_callback BUTTON_STOP 1350000 reacting_state)).reaction_time
      = 1400000
    ∧ gpio_callback BUTTON_STOP 1400000
        (gpio_callback BUTTON_STOP 1350000 reacting_state)
      ≠ gpio_callback BUTTON_STOP 1350000 reacting_state := by
  exact ⟨rfl, by decide⟩

/-- C1 (amended): while `game_running` and `reaction_phase` are both true,
every stop-edge interrupt — including one arriving when `button_b_pressed`
is already true — overwrites `reaction_time` with the current instant and
(re)asserts `button_b_pressed`; the handler is not gated on the captured
flag. -/
theorem c1_overwrite (now : Nat) (s : GameState)
    (hg : s.game_running = true) (hp : s.reaction_phase = true)
    (hb : s.button_b_pressed = true) :
    gpio_callback BUTTON_STOP now s = { s with reaction_time := now } := by
  cases s
  simp_all [gpio_callback]

/-- C1 (witness): the amended overwrite at a concrete captured state. -/
theorem c1_witness :
    gpio_callback BUTTON_STOP 1400000 captured_state
      = { captured_state with reaction_time := 1400000 } :=
  c1_overwrite 1400000 captured_state rfl rfl rfl

/-- C3: a stop-edge interrupt while the round is not Reacting
(`game_running = false` or `reaction_phase = false`) leaves the state
completely unchanged; the armed-wait loop never enables `reaction_phase`
and never writes the latch fields (`button_b_pressed`, `reaction_time`),
and a stop assertion read by any of its polls sets `false_start_detected` —
so a press during the Armed phase is detected exclusively by polling. -/
theorem c3_spurious_ignored :
    (∀ (gpio now : Nat) (s : GameState),
        s.game_running = false ∨ s.reaction_phase = false →
        gpio_callback gpio now s = s)
    ∧ (∀ (n i : Nat) (stop : Nat → Bool) (s : GameState),
        (armed_wait n i stop s).reaction_phase = s.reaction_phase
        ∧ (armed_wait n i stop s).button_b_pressed = s.button_b_pressed
        ∧ (armed_wait n i stop s).reaction_time = s.reaction_time)
    ∧ (∀ (n i j : Nat) (stop : Nat → Bool) (s : GameState),
        j < n → stop (i + j) = true →
        (armed_wait n i stop s).false_start_detected = true) := by
  refine ⟨?_, ?_, ?_⟩
  · intro gpio now s h
    rcases h with h | h <;> simp [gpio_callback, h]
  · intro n i stop s
    have hw := armed_wait_fields n i stop s
    exact ⟨hw.2.1, hw.2.2.1, hw.2.2.2.2.1⟩
  · intro n i j stop s hj hstop
    induction n generalizing i j with
    | zero => omega
    | succ n ih =>
      unfold armed_wait
      split
      · rfl
      · rename_i hfalse
        rcases Nat.eq_zero_or_pos j with hj0 | hjpos
        · subst hj0
          simp only [Nat.add_zero] at hstop
          exact absurd hstop hfalse
        · have harg : i + 1 + (j - 1) = i + j := by omega
          exact ih (i + 1) (j - 1) (by omega) (by rw [harg]; exact hstop)

/-- C3 (witness): a stop interrupt in the idle state is ignored, and a
pressed stop read at tick 0 of an armed wait sets `false_start_detected`. -/
theorem c3_witness :
    gpio_callback BUTTON_STOP 999 init_state = init_state
    ∧ (armed_wait 100 0 (fun _ => true) init_state).false_start_detected
        = true :=
  ⟨c3_spurious_ignored.1 BUTTON_STOP 999 init_state (Or.inl rfl),
   c3_spurious_ignored.2.2 100 0 0 (fun _ => true) init_state
     (by decide) rfl⟩

/-- C4 (counterexample): the claim says every value of [1000, 5000]
— including the endpoint 5000 — is a possible delay draw.  The code draws
`1000 + rand() % 4000`, whose value never reaches 5000. -/
theorem c4_counterexample : ¬ ∃ r : Nat, draw_delay r = 5000 := by
  intro h
  obtain ⟨r, hr⟩ := h
  unfold draw_delay at hr
  omega

/-- C4 (amended): every possible draw of `1000 + rand() % 4000` lies in
[1000, 4999], and every value of [1000, 4999] is attained by some `rand()`
result. -/
theorem c4_delay_range :
    (∀ r : Nat, 1000 ≤ draw_delay r ∧ draw_delay r ≤ 4999)
    ∧ (∀ v : Nat, 1000 ≤ v → v ≤ 4999 → draw_delay (v - 1000) = v) := by
  constructor
  · intro r
    unfold draw_delay
    omega
  · intro v h1 h2
    unfold draw_delay
    omega

/-- C4 (witness): concrete draws at both ends of the attainable range. -/
theorem c4_witness :
    1000 ≤ draw_delay 7777 ∧ draw_delay 7777 ≤ 4999
    ∧ draw_delay 0 = 1000 ∧ draw_delay 3999 = 4999 :=
  ⟨(c4_delay_range.1 7777).1, (c4_delay_range.1 7777).2,
   c4_delay_range.2 1000 (by decide) (by decide),
   c4_delay_range.2 4999 (by decide) (by decide)⟩

/-- C5 (counterexample): the claim says that whenever `now - last_time` (in
`uint32_t` arithmetic) is at least the 50 ms window the call returns true.
At `now = 100` ms with `last_time = 0` and the start pin reading high
(not pressed), the window check passes yet the call returns false — and it
does have a side effect there (`last_time` becomes 100). -/
theorem c5_counterexample :
    50 ≤ u32_sub (100 % U32) ((⟨0⟩ : DebounceState).last_time % U32)
    ∧ (debounce_button false 100 ⟨0⟩).1 = false
    ∧ (debounce_button false 100 ⟨0⟩).2 = ⟨100⟩ :=
  ⟨by decide, rfl, rfl⟩

/-- C5 (amended): if `now - last_time < 50` (uint32 arithmetic) the call
returns false with the state unchanged; otherwise it stores `now` into
`last_time` and returns the raw pin read (`gpio_get(gpio) == 0`), i.e. true
exactly when the pin is actually pressed, not unconditionally. -/
theorem c5_debounce_spec (pressed : Bool) (now : Nat) (d : DebounceState) :
    (u32_sub (now % U32) (d.last_time % U32) < 50 →
        debounce_button pressed now d = (false, d))
    ∧ (50 ≤ u32_sub (now % U32) (d.last_time % U32) →
        debounce_button pressed now d = (pressed, ⟨now⟩)) := by
  unfold debounce_button
  constructor
  · intro h
    rw [if_pos h]
  · intro h
    rw [if_neg (Nat.not_lt.mpr h)]

/-- C5 (witness): the amended contract at concrete calls on both sides of
the window. -/
theorem c5_witness :
    debounce_button true 100 ⟨0⟩ = (true, ⟨100⟩)
    ∧ debounce_button true 130 ⟨100⟩ = (false, ⟨100⟩) :=
  ⟨(c5_debounce_spec true 100 ⟨0⟩).2 (by decide),
   (c5_debounce_spec true 130 ⟨100⟩).1 (by decide)⟩

/-- C9: a debounced start press handled while `game_running` is already true
changes nothing: both the main-loop branch (`if (!game_running) start_game()`)
and the internal guard of `start_game` return the state untouched — no round, timing,
latch, display or indicator field is written. -/
theorem c9_no_reentrant_arming (r : Nat) (stop : Nat → Bool) (go_time : Nat)
    (s : GameState) (h : s.game_running = true) :
    handle_start_press r stop go_time s = s
    ∧ start_game r stop go_time s = s := by
  unfold handle_start_press start_game
  rw [h]
  simp

/-- C9 (witness): an ignored start press at a concrete running state. -/
theorem c9_witness :
    handle_start_press 0 (fun _ => false) 0 captured_state = captured_state
    ∧ start_game 0 (fun _ => false) 0 captured_state = captured_state :=
  c9_no_reentrant_arming 0 (fun _ => false) 0 captured_state rfl

/-- C10: `buzzer_beep` called while `buzzer_active` is true returns with the
state identical — PWM wrap and level unchanged, `buzzer_active` still true,
no new stop-buzzer alarm scheduled. -/
theorem c10_buzzer_noop (frequency duration_ms : Nat) (s : GameState)
    (h : s.buzzer_active = true) :
    buzzer_beep frequency duration_ms s = s := by
  unfold buzzer_beep
  rw [h]
  simp

/-- C10 (witness): a re-triggered beep at a concrete sounding state. -/
theorem c10_witness : buzzer_beep 3000 300 captured_state = captured_state :=
  c10_buzzer_noop 3000 300 captured_state rfl

/-- C2: in every scored round the elapsed reaction time is non-negative.
Starting a round from idle, if no false start occurred then `start_time`
holds the `go_time` recorded by `start_timer()` strictly before
`reaction_phase` was enabled, and the latch is empty; since the monotonic
clock makes every later interrupt instant at least `go_time`, any captured
`reaction_time` is at least `start_time`, so
`reaction_at - go_signal_at ≥ 0`. -/
theorem c2_elapsed_nonneg (r : Nat) (stop : Nat → Bool) (go_time : Nat)
    (s : GameState) (events : List Nat)
    (hidle : s.game_running = false)
    (hok : (start_game r stop go_time s).false_start_detected = false)
    (hev : ∀ e ∈ events, go_time ≤ e)
    (hcap : (run_interrupts events
        (start_game r stop go_time s)).button_b_pressed = true) :
    (run_interrupts events (start_game r stop go_time s)).start_time
      ≤ (run_interrupts events (start_game r stop go_time s)).reaction_time
    ∧ 0 ≤ ((run_interrupts events
          (start_game r stop go_time s)).reaction_time : Int)
        - ((run_interrupts events
          (start_game r stop go_time s)).start_time : Int) := by
  rcases start_game_spec r stop go_time s hidle
    with ⟨h1, _⟩ | ⟨h1, h2, h3, h4, h5⟩
  · rw [h1] at hok
    exact absurd hok (by simp)
  · have hst := (run_interrupts_preserves events
      (start_game r stop go_time s)).2.2
    have hrt := run_interrupts_capture_bound go_time events
      (start_game r stop go_time s)
      (by rw [h4]; intro hx; exact absurd hx (by simp)) hev hcap
    rw [hst, h5]
    exact ⟨hrt, by omega⟩

/-- C2 (witness): a concrete round — go signal at t = 1 s, one interrupt at
t = 1.35 s — has a non-negative elapsed time. -/
theorem c2_witness :
    (run_interrupts [1350000]
        (start_game 0 (fun _ => false) 1000000 init_state)).start_time
      ≤ (run_interrupts [1350000]
        (start_game 0 (fun _ => false) 1000000 init_state)).reaction_time
    ∧ 0 ≤ ((run_interrupts [1350000]
          (start_game 0 (fun _ => false) 1000000 init_state)).reaction_time : Int)
        - ((run_interrupts [1350000]
          (start_game 0 (fun _ => false) 1000000 init_state)).start_time : Int) :=
  c2_elapsed_nonneg 0 (fun _ => false) 1000000 init_state [1350000] rfl
    (by decide) (by decide) (by decide)

/-- C6: the debounce filter accepts at most once per 50 ms window.  For any
two calls that both return true, made at monotone instants `t1 ≤ t2` with
arbitrarily many calls in between (all at instants within `[t1, t2]`), the
two accepting instants are at least 50 ms apart — however many raw
transitions occur inside the window. -/
theorem c6_once_per_window (d : DebounceState) (t1 t2 : Nat) (p1 p2 : Bool)
    (mid : List (Nat × Bool))
    (h1 : (debounce_button p1 t1 d).1 = true)
    (h12 : t1 ≤ t2)
    (hmid : ∀ c ∈ mid, t1 ≤ c.1 ∧ c.1 ≤ t2)
    (h2 : (debounce_button p2 t2
        (debounce_run (debounce_button p1 t1 d).2 mid)).1 = true) :
    t1 + 50 ≤ t2 := by
  rw [debounce_true_update p1 t1 d h1] at h2
  have hbound : t1 ≤ (debounce_run ⟨t1⟩ mid).last_time
      ∧ (debounce_run ⟨t1⟩ mid).last_time ≤ t2 := by
    rcases debounce_run_last_mem mid ⟨t1⟩ with h | h
    · rw [h]
      exact ⟨Nat.le_refl t1, h12⟩
    · obtain ⟨c, hc, hceq⟩ := List.mem_map.mp h
      obtain ⟨ha, hb⟩ := hmid c hc
      exact ⟨hceq ▸ ha, hceq ▸ hb⟩
  unfold debounce_button at h2
  split at h2
  · simp at h2
  · rename_i hc
    have h50 : 50 ≤ u32_sub (t2 % U32)
        ((debounce_run ⟨t1⟩ mid).last_time % U32) := Nat.not_lt.mp hc
    have hle := u32_sub_le t2 (debounce_run ⟨t1⟩ mid).last_time hbound.2
    omega

/-- C6 (witness): an accept at 60 ms, a bounce at 80 ms (rejected), and the
next accept at 110 ms — the two accepts are 50 ms apart. -/
theorem c6_witness : 60 + 50 ≤ 110 :=
  c6_once_per_window ⟨0⟩ 60 110 true true [(80, true)] (by decide)
    (by decide) (by decide) (by decide)

/-- C7 (counterexample): a capture 350 ms after the go signal yields the
whole-millisecond value 350, but the displayed text is
`"Tempo: 350.0 ms"` — `sprintf("Tempo: %.1f ms", ...)` appends a `.0`
decimal — not the bare whole-millisecond rendering `"Tempo: 350 ms"` the
claim describes. -/
theorem c7_counterexample :
    get_elapsed_time captured_state.start_time captured_state.reaction_time
        = 350
    ∧ (score_show captured_state).display ≠ "Tempo: 350 ms"
    ∧ (score_show captured_state).display = "Tempo: 350.0 ms" := by
  refine ⟨by decide, by decide, by decide⟩

/-- C7 (amended): in a successful round the elapsed reaction time is the
microsecond difference divided by 1000 (whole milliseconds), and the result
text displays that value formatted with one decimal place (`"350.0"` for a
350 ms reaction), given the capture is not before the go signal and the
value is within the float-exact range. -/
theorem c7_display (s : GameState)
    (h1 : s.start_time ≤ s.reaction_time)
    (h2 : (s.reaction_time - s.start_time) / 1000 < 2 ^ 24) :
    get_elapsed_time s.start_time s.reaction_time
        = (s.reaction_time - s.start_time) / 1000
    ∧ (score_show s).display
        = "Tempo: " ++ toString ((s.reaction_time - s.start_time) / 1000)
          ++ ".0 ms" := by
  have he : get_elapsed_time s.start_time s.reaction_time
      = (s.reaction_time - s.start_time) / 1000 := by
    rw [get_elapsed_time_of_le _ _ h1]
    exact Nat.mod_eq_of_lt (lt_trans h2 (by norm_num [U32]))
  refine ⟨he, ?_⟩
  show format_elapsed (get_elapsed_time s.start_time s.reaction_time) = _
  rw [he]
  rfl

/-- C7 (witness): the amended statement at the concrete 350 ms round. -/
theorem c7_witness :
    get_elapsed_time captured_state.start_time captured_state.reaction_time
        = (captured_state.reaction_time - captured_state.start_time) / 1000
    ∧ (score_show captured_state).display
        = "Tempo: " ++ toString ((captured_state.reaction_time
            - captured_state.start_time) / 1000) ++ ".0 ms" :=
  c7_display captured_state (by decide) (by decide)

/-- C8: Idle re-entry.  A penalized round (false start detected during the
armed wait) ends with `game_running = false`, `reaction_phase = false` and
an empty latch; a scored round, after its 5000 ms display hold, likewise
resets every round flag and the latch before the next round can arm. -/
theorem c8_idle_reentry :
    (∀ (r : Nat) (stop : Nat → Bool) (go_time : Nat) (s : GameState),
        s.game_running = false →
        (start_game r stop go_time s).false_start_detected = true →
        (start_game r stop go_time s).game_running = false
        ∧ (start_game r stop go_time s).reaction_phase = false
        ∧ (start_game r stop go_time s).button_b_pressed = false)
    ∧ (∀ s : GameState,
        s.game_running = true → s.reaction_phase = true →
        s.button_b_pressed = true →
        (score_round s).game_running = false
        ∧ (score_round s).reaction_phase = false
        ∧ (score_round s).button_b_pressed = false) := by
  constructor
  · intro r stop go_time s hidle hfsd
    rcases start_game_spec r stop go_time s hidle with ⟨_, h⟩ | ⟨h1, _⟩
    · exact h
    · rw [hfsd] at h1
      exact absurd h1 (by simp)
  · intro s h1 h2 h3
    unfold score_round
    rw [h1, h2, h3]
    exact ⟨rfl, rfl, rfl⟩

/-- C8 (witness): a concrete penalized round (stop held down from the first
tick) and a concrete scored round both land back in Idle with the latch
empty. -/
theorem c8_witness :
    ((start_game 0 (fun _ => true) 0 init_state).game_running = false
      ∧ (start_game 0 (fun _ => true) 0 init_state).reaction_phase = false
      ∧ (start_game 0 (fun _ => true) 0 init_state).button_b_pressed = false)
    ∧ ((score_round captured_state).game_running = false
      ∧ (score_round captured_state).reaction_phase = false
      ∧ (score_round captured_state).button_b_pressed = false) :=
  ⟨c8_idle_reentry.1 0 (fun _ => true) 0 init_state rfl (by decide),
   c8_idle_reentry.2 captured_state rfl rfl rfl⟩

end Ligeirinho
